import Mathlib

/-!
Shallow embedding of the proton-docs-mcp automation session orchestrator
(src/src/index.ts). The browser (puppeteer) is modelled as a scripted fake
surface `Env`; every UI primitive the orchestrator issues (navigation,
clicks, typed text, key presses, waits) is recorded as an `Event` in a
trace, and fallible primitives (waitForSelector, page.click, frame.click,
frame.type, page.type) fail exactly when the scripted surface does not
contain the selector.  Each tool method is `parse -> ensureBrowser ->
try body catch wrap`, modelled by `runMethod`.
-/

deriving instance DecidableEq for Except

namespace ProtonDocs

/-- Error codes of McpError as used by the source (`ErrorCode.InvalidRequest`,
`ErrorCode.InternalError`, `ErrorCode.MethodNotFound`). -/
inductive ErrCode
  | invalidRequest
  | internalError
  | methodNotFound
deriving DecidableEq

/-- Errors that can surface out of a handler: an `McpError` thrown by the
orchestrator itself, or an error raised by the browser driver
(selector timeout, missing element, failed launch). -/
inductive Err
  | mcp (code : ErrCode) (msg : String)
  | driver (msg : String)
deriving DecidableEq

/-- JS string coercion of an error, as interpolated by the source's
catch blocks (template literal over the caught error). -/
def errStr : Err → String
  | Err.mcp _ m => "McpError: " ++ m
  | Err.driver m => m

/-- One recorded UI interaction against the session's page or the editor
frame.  `nav` is a `page.goto`, `waitSel` a successful `waitForSelector`,
`click`/`typeText` element interactions on the top page, `frameClick` /
`frameType` interactions inside the editor frame, `keyDown`/`keyPress`/
`keyUp`/`kbType` keyboard dispatches, `pause` a `waitForTimeout`. -/
inductive Event
  | nav (url : String)
  | waitSel (sel : String)
  | click (sel : String)
  | typeText (sel : String) (text : String)
  | frameClick (sel : String)
  | frameType (sel : String) (text : String)
  | keyDown (key : String)
  | keyPress (key : String)
  | keyUp (key : String)
  | kbType (text : String)
  | pause (ms : Nat)
deriving DecidableEq

/-- A rendering context as enumerated by `page.frames()`: its name, its URL
and the set of selectors that resolve inside it. -/
structure Frame where
  name : String
  url : String
  selectors : List String
deriving DecidableEq

/-- One `tbody tr` row of the document listing surface.  Each cell is
`none` when `querySelector` finds no such cell, `some text` for the cell's
`textContent`; `dataUrl` is the row's `data-url` attribute. -/
structure DocRow where
  titleCell : Option String
  viewedCell : Option String
  createdByCell : Option String
  locationCell : Option String
  dataUrl : Option String
deriving DecidableEq

/-- One `[data-testid="version-item"]` element of the version history
panel; `date` / `author` are the `textContent`s of the corresponding
sub-elements (none when absent). -/
structure VersionItem where
  date : Option String
  author : Option String
deriving DecidableEq

/-- The scripted fake surface: which selectors are present on the top-level
page, which frames the page exposes, the listing rows, the editor iframe's
document and main editor element, and the version history items. -/
structure Env where
  launchOk : Bool
  pageSelectors : List String
  frames : List Frame
  rows : List DocRow
  iframeContentDoc : Bool
  editorInIframe : Bool
  editorText : String
  editorHtml : String
  versionItems : List VersionItem
deriving DecidableEq

/-- Browser-ownership part of the orchestrator state: whether
`this.browser` / `this.page` are set, and counters of the observable
launch / newPage side effects. -/
structure BSt where
  browser : Bool
  page : Bool
  launchCount : Nat
  pageCount : Nat
deriving DecidableEq

/-- Page-level state threaded through one or more pipeline runs: the
recorded interaction trace and the page's current URL. -/
structure PSt where
  trace : List Event
  currentUrl : String
deriving DecidableEq

/-- Full orchestrator state. -/
structure St where
  b : BSt
  p : PSt
deriving DecidableEq

def initB : BSt := { browser := false, page := false, launchCount := 0, pageCount := 0 }

def initSt : St := { b := initB, p := { trace := [], currentUrl := "" } }

/-- The page-interaction monad: a computation over the page state that
either produces a value or raises an error, in both cases returning the
trace of interactions performed so far. -/
def PM (α : Type) : Type := PSt → Except Err α × PSt

def PM.pure (a : α) : PM α := fun s => (Except.ok a, s)

def PM.bind (m : PM α) (f : α → PM β) : PM β := fun s =>
  match m s with
  | (Except.ok a, s') => f a s'
  | (Except.error e, s') => (Except.error e, s')

instance : Monad PM where
  pure := PM.pure
  bind := PM.bind

@[simp] theorem pm_bind_def (m : PM α) (f : α → PM β) : m >>= f = PM.bind m f := rfl

@[simp] theorem pm_pure_def (a : α) : (Pure.pure a : PM α) = PM.pure a := rfl

/-- The orchestrator monad over the full state. -/
def M (α : Type) : Type := St → Except Err α × St

def M.bind (m : M α) (f : α → M β) : M β := fun s =>
  match m s with
  | (Except.ok a, s') => f a s'
  | (Except.error e, s') => (Except.error e, s')

/-- Run a page computation inside the orchestrator state, leaving the
browser-ownership part untouched (the handler bodies only ever use
`this.page` / frames, never reassign `this.browser` or `this.page`). -/
def liftPage (m : PM α) : M α := fun s =>
  match m s.p with
  | (r, p') => (r, { b := s.b, p := p' })

-- Page/keyboard primitives ---------------------------------------------------

def emit (e : Event) : PM Unit := fun s =>
  (Except.ok (), { s with trace := s.trace ++ [e] })

/-- `page.goto(url, { waitUntil: networkidle2 })`: records the navigation
and makes `url` the page's current URL. -/
def goto (url : String) : PM Unit := fun s =>
  (Except.ok (), { trace := s.trace ++ [Event.nav url], currentUrl := url })

/-- `page.url()`. -/
def getUrl : PM String := fun s => (Except.ok s.currentUrl, s)

/-- `page.waitForSelector(sel, ...)`: succeeds iff the scripted surface
contains the selector, otherwise raises the driver's timeout error. -/
def waitForSelector (env : Env) (sel : String) : PM Unit := fun s =>
  if env.pageSelectors.contains sel then
    (Except.ok (), { s with trace := s.trace ++ [Event.waitSel sel] })
  else
    (Except.error (Err.driver ("TimeoutError: Waiting for selector " ++ sel ++ " failed")), s)

/-- `page.click(sel)`: fails when no element matches the selector. -/
def pageClick (env : Env) (sel : String) : PM Unit := fun s =>
  if env.pageSelectors.contains sel then
    (Except.ok (), { s with trace := s.trace ++ [Event.click sel] })
  else
    (Except.error (Err.driver ("No element found for selector: " ++ sel)), s)

/-- `page.type(sel, text)`: fails when no element matches the selector. -/
def pageType (env : Env) (sel : String) (text : String) : PM Unit := fun s =>
  if env.pageSelectors.contains sel then
    (Except.ok (), { s with trace := s.trace ++ [Event.typeText sel text] })
  else
    (Except.error (Err.driver ("No element found for selector: " ++ sel)), s)

/-- `page.$(sel)`: a query, never fails and interacts with nothing;
returns whether an element handle was found. -/
def pageQuery (env : Env) (sel : String) : PM Bool := fun s =>
  (Except.ok (env.pageSelectors.contains sel), s)

/-- Clicking an element handle that was already obtained (from `$` or
`waitForSelector`). -/
def elemClick (sel : String) : PM Unit := emit (Event.click sel)

/-- Typing into an element handle that was already obtained. -/
def elemType (sel : String) (text : String) : PM Unit := emit (Event.typeText sel text)

/-- `frame.click(sel)`: fails when the selector is absent from the frame. -/
def frameClick (f : Frame) (sel : String) : PM Unit := fun s =>
  if f.selectors.contains sel then
    (Except.ok (), { s with trace := s.trace ++ [Event.frameClick sel] })
  else
    (Except.error (Err.driver ("No element found for selector: " ++ sel)), s)

/-- `frame.type(sel, text)`: fails when the selector is absent. -/
def frameType (f : Frame) (sel : String) (text : String) : PM Unit := fun s =>
  if f.selectors.contains sel then
    (Except.ok (), { s with trace := s.trace ++ [Event.frameType sel text] })
  else
    (Except.error (Err.driver ("No element found for selector: " ++ sel)), s)

/-- `frame.$(sel)`: query inside the frame, no interaction, no failure. -/
def frameQuery (f : Frame) (sel : String) : PM Bool := fun s =>
  (Except.ok (f.selectors.contains sel), s)

/-- Clicking an element handle obtained from `frame.$`. -/
def frameElemClick (sel : String) : PM Unit := emit (Event.frameClick sel)

def kbDown (k : String) : PM Unit := emit (Event.keyDown k)

def kbPress (k : String) : PM Unit := emit (Event.keyPress k)

def kbUp (k : String) : PM Unit := emit (Event.keyUp k)

def kbType (text : String) : PM Unit := emit (Event.kbType text)

/-- `page.waitForTimeout(ms)`. -/
def pause (ms : Nat) : PM Unit := emit (Event.pause ms)

/-- `throw new McpError(...)` inside a handler body. -/
def throwErr (e : Err) : PM α := fun s => (Except.error e, s)

/-- The uniform `try { ... } catch (error) { throw new McpError(
ErrorCode.InternalError, "Failed to <op>: " + error) }` of every handler. -/
def tryWrap (op : String) (m : PM α) : PM α := fun s =>
  match m s with
  | (Except.ok a, s') => (Except.ok a, s')
  | (Except.error e, s') =>
      (Except.error (Err.mcp ErrCode.internalError ("Failed to " ++ op ++ ": " ++ errStr e)), s')

-- ensureBrowser --------------------------------------------------------------

/-- `if (!this.browser) { this.browser = await puppeteer.launch(...) }`:
launching fails when the scripted environment refuses it. -/
def launchStep (env : Env) (b : BSt) : Except Err BSt :=
  if b.browser then Except.ok b
  else if env.launchOk then
    Except.ok { b with browser := true, launchCount := b.launchCount + 1 }
  else Except.error (Err.driver "Error: Failed to launch the browser process!")

/-- `if (!this.page) { this.page = await this.browser.newPage(); ... }`. -/
def pageStep (b : BSt) : BSt :=
  if b.page then b else { b with page := true, pageCount := b.pageCount + 1 }

/-- `private async ensureBrowser()` (src/src/index.ts:112-125). -/
def ensureBrowser (env : Env) : M Unit := fun s =>
  match launchStep env s.b with
  | Except.error e => (Except.error e, s)
  | Except.ok b1 => (Except.ok (), { s with b := pageStep b1 })

/-- The browser-ownership state after a successful `ensureBrowser`. -/
def ensuredB (b : BSt) : BSt :=
  pageStep (if b.browser then b else { b with browser := true, launchCount := b.launchCount + 1 })

/-- The uniform shape of every handler method: schema-validated params are
given, then `ensureBrowser`, then the wrapped try body. -/
def runMethod (env : Env) (op : String) (body : PM α) : M α :=
  M.bind (ensureBrowser env) (fun _ => liftPage (tryWrap op body))

-- String helpers (structural-recursion models of the JS string methods) ------

def listStartsWith : List Char → List Char → Bool
  | [], _ => true
  | _ :: _, [] => false
  | p :: ps, c :: cs => p == c && listStartsWith ps cs

def listContainsSub (pat : List Char) : List Char → Bool
  | [] => listStartsWith pat []
  | c :: cs => listStartsWith pat (c :: cs) || listContainsSub pat cs

/-- JS `s.includes(pat)`. -/
def strContains (s pat : String) : Bool := listContainsSub pat.toList s.toList

def isWhitespaceChar (c : Char) : Bool := c == ' ' || c == '\t' || c == '\n' || c == '\r'

def trimChars (l : List Char) : List Char :=
  ((l.dropWhile isWhitespaceChar).reverse.dropWhile isWhitespaceChar).reverse

/-- JS `s.trim()` (restricted to the common whitespace characters). -/
def strTrim (s : String) : String := String.mk (trimChars s.toList)

def splitPlusAux (cur : List Char) : List Char → List (List Char)
  | [] => [cur.reverse]
  | c :: cs => if c == '+' then cur.reverse :: splitPlusAux [] cs else splitPlusAux (c :: cur) cs

/-- JS `s.split('+')`. -/
def splitPlus (s : String) : List String := (splitPlusAux [] s.toList).map String.mk

/-- JS `s || d` on strings (empty string is falsy). -/
def jsOrStr (s d : String) : String := if s == "" then d else s

-- Parameter records (post zod-validation arguments) --------------------------

inductive Permission
  | view
  | edit
deriving DecidableEq

inductive TextFormat
  | bold
  | italic
  | underline
  | strikethrough
deriving DecidableEq

inductive ListKind
  | bullet
  | numbered
deriving DecidableEq

inductive DownloadFormat
  | docx
  | pdf
  | txt
  | markdown
deriving DecidableEq

inductive Alignment
  | left
  | center
  | right
  | justify
deriving DecidableEq

/-- Post-validation arguments of list_documents.  The zod schema declares
`limit: z.number()`, an arbitrary JS number: it admits negative and
fractional values, not just integers.  The finite values of that domain
are modelled exactly as rationals (the non-finite values NaN and
±Infinity have no exact-number counterpart and are outside this model). -/
structure ListDocumentsParams where
  searchQuery : Option String
  limit : Rat
deriving DecidableEq

structure ReadDocumentParams where
  documentUrl : String
deriving DecidableEq

structure CreateDocumentParams where
  title : String
  content : Option String
deriving DecidableEq

structure SearchDocumentsParams where
  query : String
deriving DecidableEq

structure EditDocumentParams where
  documentUrl : String
  content : String
  append : Bool
deriving DecidableEq

structure DeleteDocumentParams where
  documentUrl : String
  permanent : Bool
deriving DecidableEq

structure ShareDocumentParams where
  documentUrl : String
  email : String
  permission : Permission
deriving DecidableEq

structure FormatTextParams where
  documentUrl : String
  format : TextFormat
  selection : Option String
deriving DecidableEq

structure CreateListParams where
  documentUrl : String
  listType : ListKind
  items : List String
deriving DecidableEq

structure InsertLinkParams where
  documentUrl : String
  text : String
  url : String
deriving DecidableEq

structure ChangeFontParams where
  documentUrl : String
  fontFamily : Option String
  fontSize : Option Int
deriving DecidableEq

structure DownloadDocumentParams where
  documentUrl : String
  format : DownloadFormat
deriving DecidableEq

structure CopyDocumentParams where
  documentUrl : String
  newTitle : String
deriving DecidableEq

structure GetVersionHistoryParams where
  documentUrl : String
deriving DecidableEq

structure SetAlignmentParams where
  documentUrl : String
  alignment : Alignment
deriving DecidableEq

-- Success payloads -----------------------------------------------------------

structure DocEntry where
  title : String
  viewed : String
  createdBy : String
  location : String
  url : String
deriving DecidableEq

structure SearchEntry where
  title : String
  url : String
deriving DecidableEq

structure VersionEntry where
  date : String
  author : Option String
deriving DecidableEq

/-- The JSON success payloads returned by the fifteen handlers. -/
inductive Payload
  | listDocs (documents : List DocEntry)
  | readDoc (text : String) (html : String)
  | createDoc (success : Bool) (documentUrl : String) (title : String)
  | searchDocs (query : String) (results : List SearchEntry) (count : Nat)
  | editDoc (success : Bool) (documentUrl : String) (action : String)
  | deleteDoc (success : Bool) (action : String) (documentUrl : String)
  | shareDoc (success : Bool) (documentUrl : String) (sharedWith : String) (permission : String)
  | formatApplied (success : Bool) (format : String) (applied : Bool)
  | listCreated (success : Bool) (listKind : String) (itemCount : Nat)
  | linkInserted (success : Bool) (text : String) (url : String)
  | fontChanged (success : Bool) (fontFamily : Option String) (fontSize : Option Int)
  | downloadStarted (success : Bool) (format : String) (message : String)
  | copied (success : Bool) (originalUrl : String) (newTitle : String)
  | versionHistory (documentUrl : String) (versions : List VersionEntry) (count : Nat)
  | alignmentSet (success : Bool) (alignment : String)
deriving DecidableEq

-- Fixed selectors and URLs from the source -----------------------------------

def recentsUrl : String := "https://docs.proton.me/u/1/recents"

def composeUrl : String := "https://docs.proton.me/u/1/doc"

def trashUrl : String := "https://docs.proton.me/u/1/trash"

def markerSel : String := "iframe[data-testid=\"editor-frame-edit\"]"

def mainEditorSel : String := "[data-testid=\"main-editor\"]"

def nameDropdownSel : String := "[data-testid=\"document-name-dropdown\"]"

def inputElemSel : String := "[data-testid=\"input-input-element\"]"

def searchInputSel : String := "input[placeholder*=\"Search\"]"

/-- `page.frames().find(f => f.name().includes('editor') || f.url().includes('editor'))`. -/
def findEditorFrame (env : Env) : Option Frame :=
  env.frames.find? (fun f => strContains f.name "editor" || strContains f.url "editor")

-- Extraction functions (the page.evaluate bodies) ----------------------------

/-- `cell?.textContent?.trim() || ''`. -/
def optCellText (c : Option String) : String := strTrim (c.getD "")

/-- One iteration of the listing extraction loop: skip the row when it has
no title cell. -/
def rowToDoc (r : DocRow) : Option DocEntry :=
  match r.titleCell with
  | none => none
  | some t => some
      { title := jsOrStr (strTrim t) "Untitled"
        viewed := optCellText r.viewedCell
        createdBy := optCellText r.createdByCell
        location := optCellText r.locationCell
        url := r.dataUrl.getD "" }

/-- JS `Math.min(a, b)` on finite numbers. -/
def jsMin (a b : Rat) : Rat := if b < a then b else a

/-- The extraction loop of `listDocuments`'s page.evaluate:
`for (let i = 0; i < Math.min(rows.length, limit); i++)`, pushing an
entry for each visited row that has a title cell.  The counter `i` is a
natural; the loop bound `m` is an arbitrary finite JS number, so the
condition `i < m` is a mixed comparison exactly as in JS (for fractional
`m` the loop runs `ceil m` times). -/
def extractLoop (m : Rat) : Nat → List DocRow → List DocEntry
  | _, [] => []
  | i, r :: rest =>
      if (i : Rat) < m then
        match rowToDoc r with
        | some d => d :: extractLoop m (i + 1) rest
        | none => extractLoop m (i + 1) rest
      else []

/-- The `page.evaluate` of `listDocuments`. -/
def extractDocs (rows : List DocRow) (limit : Rat) : List DocEntry :=
  extractLoop (jsMin ((rows.length : Rat)) limit) 0 rows

/-- The `page.evaluate` of `searchDocuments`: every row with a title cell. -/
def searchExtract (rows : List DocRow) : List SearchEntry :=
  rows.filterMap (fun r =>
    r.titleCell.map (fun t => { title := strTrim t, url := r.dataUrl.getD "" }))

/-- The `page.evaluate` of `getVersionHistory`: keep items whose date text
is truthy. -/
def versionExtract (items : List VersionItem) : List VersionEntry :=
  items.filterMap (fun it =>
    match it.date with
    | none => none
    | some d => if d == "" then none else some { date := d, author := it.author })

-- Handler bodies (the try-block of each method) ------------------------------

/-- `listDocuments` try body (src/src/index.ts:470-513). -/
def listDocumentsBody (env : Env) (p : ListDocumentsParams) : PM Payload := do
  goto recentsUrl
  waitForSelector env "table"
  (match p.searchQuery with
   | some q =>
       if q == "" then PM.pure () else do
         pageType env searchInputSel q
         kbPress "Enter"
         pause 1000
   | none => PM.pure ())
  PM.pure (Payload.listDocs (extractDocs env.rows p.limit))

/-- `readDocument` try body (src/src/index.ts:526-554). -/
def readDocumentBody (env : Env) (p : ReadDocumentParams) : PM Payload := do
  goto p.documentUrl
  waitForSelector env markerSel
  let content :=
    if env.pageSelectors.contains markerSel && env.iframeContentDoc then
      if env.editorInIframe then (env.editorText, env.editorHtml) else ("", "")
    else ("", "")
  PM.pure (Payload.readDoc content.1 content.2)

/-- `createDocument` try body (src/src/index.ts:567-614). -/
def createDocumentBody (env : Env) (p : CreateDocumentParams) : PM Payload := do
  goto composeUrl
  pause 3000
  let renameInput ← pageQuery env inputElemSel
  (if renameInput then do
     elemClick inputElemSel
     elemType inputElemSel p.title
     kbPress "Enter"
   else do
     pageClick env nameDropdownSel
     waitForSelector env "[data-testid=\"dropdown-rename\"]"
     pageClick env "[data-testid=\"dropdown-rename\"]"
     waitForSelector env inputElemSel
     elemClick inputElemSel
     elemType inputElemSel p.title
     kbPress "Enter")
  (match p.content with
   | some c =>
       if c == "" then PM.pure () else do
         waitForSelector env markerSel
         (match findEditorFrame env with
          | some f => do
              frameClick f mainEditorSel
              frameType f mainEditorSel c
          | none => PM.pure ())
   | none => PM.pure ())
  pause 2000
  let documentUrl ← getUrl
  PM.pure (Payload.createDoc true documentUrl p.title)

/-- `searchDocuments` try body (src/src/index.ts:627-663). -/
def searchDocumentsBody (env : Env) (p : SearchDocumentsParams) : PM Payload := do
  goto recentsUrl
  waitForSelector env searchInputSel
  elemType searchInputSel p.query
  kbPress "Enter"
  pause 2000
  let results := searchExtract env.rows
  PM.pure (Payload.searchDocs p.query results results.length)

/-- `editDocument` try body (src/src/index.ts:676-712). -/
def editDocumentBody (env : Env) (p : EditDocumentParams) : PM Payload := do
  goto p.documentUrl
  waitForSelector env markerSel
  (match findEditorFrame env with
   | some f => do
       frameClick f mainEditorSel
       (if p.append then do
          kbDown "Control"
          kbPress "End"
          kbUp "Control"
          kbPress "Enter"
        else do
          kbDown "Control"
          kbPress "a"
          kbUp "Control")
       frameType f mainEditorSel p.content
   | none => PM.pure ())
  pause 2000
  PM.pure (Payload.editDoc true p.documentUrl (if p.append then "appended" else "replaced"))

/-- `deleteDocument` try body (src/src/index.ts:725-766): the permanent
branch navigates to the trash view and then throws. -/
def deleteDocumentBody (env : Env) (p : DeleteDocumentParams) : PM Payload := do
  if p.permanent then do
    goto trashUrl
    throwErr (Err.mcp ErrCode.invalidRequest "Permanent deletion from trash not yet implemented")
  else do
    goto p.documentUrl
    pageClick env nameDropdownSel
    waitForSelector env "[data-testid=\"dropdown-move-to-trash\"]"
    pageClick env "[data-testid=\"dropdown-move-to-trash\"]"
    let confirmButton ← pageQuery env "button:has-text(\"Move to trash\")"
    (if confirmButton then elemClick "button:has-text(\"Move to trash\")" else PM.pure ())
    pause 2000
    PM.pure (Payload.deleteDoc true "moved_to_trash" p.documentUrl)

def permissionName : Permission → String
  | Permission.view => "view"
  | Permission.edit => "edit"

/-- `shareDocument` try body (src/src/index.ts:779-815). -/
def shareDocumentBody (env : Env) (p : ShareDocumentParams) : PM Payload := do
  goto p.documentUrl
  pageClick env "button:has-text(\"Share\")"
  pause 1000
  waitForSelector env "input[type=\"email\"]"
  elemType "input[type=\"email\"]" p.email
  (if p.permission = Permission.edit then do
     let permissionDropdown ← pageQuery env "[data-testid=\"permission-dropdown\"]"
     if permissionDropdown then do
       elemClick "[data-testid=\"permission-dropdown\"]"
       pageClick env "button:has-text(\"Can edit\")"
     else PM.pure ()
   else PM.pure ())
  pageClick env "button:has-text(\"Send\")"
  pause 2000
  PM.pure (Payload.shareDoc true p.documentUrl p.email (permissionName p.permission))

def fmtSelector : TextFormat → String
  | TextFormat.bold => "button[title*=\"Bold\"]"
  | TextFormat.italic => "button[title*=\"Italic\"]"
  | TextFormat.underline => "button[title*=\"Underline\"]"
  | TextFormat.strikethrough => "button[title*=\"Strike\"]"

def fmtShortcut : TextFormat → String
  | TextFormat.bold => "Control+b"
  | TextFormat.italic => "Control+i"
  | TextFormat.underline => "Control+u"
  | TextFormat.strikethrough => "Control+Shift+x"

def fmtName : TextFormat → String
  | TextFormat.bold => "bold"
  | TextFormat.italic => "italic"
  | TextFormat.underline => "underline"
  | TextFormat.strikethrough => "strikethrough"

/-- The key-down loop of the shortcut fallback: `for (const key of keys)
if (key !== keys[keys.length - 1]) keyboard.down(key)`. -/
def downKeys (last : String) : List String → PM Unit
  | [] => PM.pure ()
  | k :: rest => do
      (if k = last then PM.pure () else kbDown k)
      downKeys last rest

/-- The key-up loop: `for (const key of keys.slice(0, -1)) keyboard.up(key)`
releases the modifiers in the same (forward) order they were pressed. -/
def upKeys : List String → PM Unit
  | [] => PM.pure ()
  | k :: rest => do
      kbUp k
      upKeys rest

/-- The shortcut fallback of `formatText` (src/src/index.ts:862-872). -/
def pressShortcut (sc : String) : PM Unit := do
  let keys := splitPlus sc
  let last := keys.getLastD ""
  downKeys last keys
  kbPress last
  upKeys keys.dropLast

/-- `formatText` try body (src/src/index.ts:828-885). -/
def formatTextBody (env : Env) (p : FormatTextParams) : PM Payload := do
  goto p.documentUrl
  waitForSelector env markerSel
  (match findEditorFrame env with
   | some f => do
       (match p.selection with
        | some sel =>
            if sel == "" then PM.pure () else do
              frameClick f mainEditorSel
              kbDown "Control"
              kbPress "f"
              kbUp "Control"
              kbType sel
              kbPress "Escape"
        | none => PM.pure ())
       let button ← frameQuery f (fmtSelector p.format)
       if button then frameElemClick (fmtSelector p.format)
       else pressShortcut (fmtShortcut p.format)
   | none => PM.pure ())
  PM.pure (Payload.formatApplied true (fmtName p.format) true)

def listButtonSel : ListKind → String
  | ListKind.bullet => "button[title*=\"Bullet list\"]"
  | ListKind.numbered => "button[title*=\"Numbered list\"]"

def listKindName : ListKind → String
  | ListKind.bullet => "bullet"
  | ListKind.numbered => "numbered"

/-- Typing the list items: `frame.type` each item, pressing Enter between
consecutive items (src/src/index.ts:920-925). -/
def typeItemsLoop (f : Frame) : List String → PM Unit
  | [] => PM.pure ()
  | [x] => frameType f mainEditorSel x
  | x :: y :: rest => do
      frameType f mainEditorSel x
      kbPress "Enter"
      typeItemsLoop f (y :: rest)

/-- `createList` try body (src/src/index.ts:898-940). -/
def createListBody (env : Env) (p : CreateListParams) : PM Payload := do
  goto p.documentUrl
  waitForSelector env markerSel
  (match findEditorFrame env with
   | some f => do
       frameClick f mainEditorSel
       let listButton ← frameQuery f (listButtonSel p.listType)
       (if listButton then frameElemClick (listButtonSel p.listType) else PM.pure ())
       typeItemsLoop f p.items
       kbPress "Enter"
       kbPress "Enter"
   | none => PM.pure ())
  PM.pure (Payload.listCreated true (listKindName p.listType) p.items.length)

/-- The text-selection loop of `insertLink`: Shift+ArrowLeft once per
character of the link text. -/
def selectLeftLoop : Nat → PM Unit
  | 0 => PM.pure ()
  | n + 1 => do
      kbDown "Shift"
      kbPress "ArrowLeft"
      kbUp "Shift"
      selectLeftLoop n

/-- `insertLink` try body (src/src/index.ts:954-995). -/
def insertLinkBody (env : Env) (p : InsertLinkParams) : PM Payload := do
  goto p.documentUrl
  waitForSelector env markerSel
  (match findEditorFrame env with
   | some f => do
       frameClick f mainEditorSel
       frameType f mainEditorSel p.text
       selectLeftLoop p.text.length
       kbDown "Control"
       kbPress "k"
       kbUp "Control"
       pause 500
       kbType p.url
       kbPress "Enter"
   | none => PM.pure ())
  PM.pure (Payload.linkInserted true p.text p.url)

/-- `changeFont` try body (src/src/index.ts:1009-1053); note the JS
truthiness guards `if (params.fontFamily)` / `if (params.fontSize)`. -/
def changeFontBody (env : Env) (p : ChangeFontParams) : PM Payload := do
  goto p.documentUrl
  waitForSelector env markerSel
  (match findEditorFrame env with
   | some f => do
       frameClick f mainEditorSel
       kbDown "Control"
       kbPress "a"
       kbUp "Control"
       (match p.fontFamily with
        | some ff =>
            if ff == "" then PM.pure () else do
              let fontButton ← frameQuery f "button[aria-label*=\"Font\"]"
              if fontButton then do
                frameElemClick "button[aria-label*=\"Font\"]"
                pause 500
                pageClick env ("button:has-text(\"" ++ ff ++ "\")")
              else PM.pure ()
        | none => PM.pure ())
       (match p.fontSize with
        | some n =>
            if n = 0 then PM.pure () else do
              let sizeButton ← frameQuery f "button[aria-label*=\"Font size\"]"
              if sizeButton then do
                frameElemClick "button[aria-label*=\"Font size\"]"
                pause 500
                pageClick env ("button:has-text(\"" ++ toString n ++ "px\")")
              else PM.pure ()
        | none => PM.pure ())
   | none => PM.pure ())
  PM.pure (Payload.fontChanged true p.fontFamily p.fontSize)

def dlFormatName : DownloadFormat → String
  | DownloadFormat.docx => "docx"
  | DownloadFormat.pdf => "pdf"
  | DownloadFormat.txt => "txt"
  | DownloadFormat.markdown => "markdown"

def dlFormatUpper : DownloadFormat → String
  | DownloadFormat.docx => "DOCX"
  | DownloadFormat.pdf => "PDF"
  | DownloadFormat.txt => "TXT"
  | DownloadFormat.markdown => "MARKDOWN"

/-- `downloadDocument` try body (src/src/index.ts:1067-1097). -/
def downloadDocumentBody (env : Env) (p : DownloadDocumentParams) : PM Payload := do
  goto p.documentUrl
  pageClick env nameDropdownSel
  waitForSelector env "[data-testid=\"dropdown-download\"]"
  pageClick env "[data-testid=\"dropdown-download\"]"
  (if p.format = DownloadFormat.docx then PM.pure ()
   else do
     pause 500
     let formatButton ← pageQuery env ("button:has-text(\"" ++ dlFormatUpper p.format ++ "\")")
     if formatButton then elemClick ("button:has-text(\"" ++ dlFormatUpper p.format ++ "\")")
     else PM.pure ())
  pause 3000
  PM.pure (Payload.downloadStarted true (dlFormatName p.format) "Download initiated")

/-- `copyDocument` try body (src/src/index.ts:1111-1139). -/
def copyDocumentBody (env : Env) (p : CopyDocumentParams) : PM Payload := do
  goto p.documentUrl
  pageClick env nameDropdownSel
  waitForSelector env "[data-testid=\"dropdown-make-copy\"]"
  pageClick env "[data-testid=\"dropdown-make-copy\"]"
  waitForSelector env inputElemSel
  elemClick inputElemSel
  elemType inputElemSel p.newTitle
  pageClick env "button:has-text(\"Copy\")"
  pause 3000
  PM.pure (Payload.copied true p.documentUrl p.newTitle)

/-- `getVersionHistory` try body (src/src/index.ts:1153-1189). -/
def getVersionHistoryBody (env : Env) (p : GetVersionHistoryParams) : PM Payload := do
  goto p.documentUrl
  pageClick env nameDropdownSel
  waitForSelector env "[data-testid=\"dropdown-version-history\"]"
  pageClick env "[data-testid=\"dropdown-version-history\"]"
  pause 2000
  let versions := versionExtract env.versionItems
  PM.pure (Payload.versionHistory p.documentUrl versions versions.length)

def alignSel : Alignment → String
  | Alignment.left => "button[title*=\"Align left\"]"
  | Alignment.center => "button[title*=\"Align center\"]"
  | Alignment.right => "button[title*=\"Align right\"]"
  | Alignment.justify => "button[title*=\"Justify\"]"

def alignName : Alignment → String
  | Alignment.left => "left"
  | Alignment.center => "center"
  | Alignment.right => "right"
  | Alignment.justify => "justify"

/-- `setAlignment` try body (src/src/index.ts:1203-1241). -/
def setAlignmentBody (env : Env) (p : SetAlignmentParams) : PM Payload := do
  goto p.documentUrl
  waitForSelector env markerSel
  (match findEditorFrame env with
   | some f => do
       frameClick f mainEditorSel
       kbDown "Control"
       kbPress "a"
       kbUp "Control"
       let alignButton ← frameQuery f (alignSel p.alignment)
       (if alignButton then frameElemClick (alignSel p.alignment) else PM.pure ())
   | none => PM.pure ())
  PM.pure (Payload.alignmentSet true (alignName p.alignment))

-- Handler methods and the tool dispatcher ------------------------------------

def listDocumentsM (env : Env) (p : ListDocumentsParams) : M Payload :=
  runMethod env "list documents" (listDocumentsBody env p)

def readDocumentM (env : Env) (p : ReadDocumentParams) : M Payload :=
  runMethod env "read document" (readDocumentBody env p)

def createDocumentM (env : Env) (p : CreateDocumentParams) : M Payload :=
  runMethod env "create document" (createDocumentBody env p)

def searchDocumentsM (env : Env) (p : SearchDocumentsParams) : M Payload :=
  runMethod env "search documents" (searchDocumentsBody env p)

def editDocumentM (env : Env) (p : EditDocumentParams) : M Payload :=
  runMethod env "edit document" (editDocumentBody env p)

def deleteDocumentM (env : Env) (p : DeleteDocumentParams) : M Payload :=
  runMethod env "delete document" (deleteDocumentBody env p)

def shareDocumentM (env : Env) (p : ShareDocumentParams) : M Payload :=
  runMethod env "share document" (shareDocumentBody env p)

def formatTextM (env : Env) (p : FormatTextParams) : M Payload :=
  runMethod env "format text" (formatTextBody env p)

def createListM (env : Env) (p : CreateListParams) : M Payload :=
  runMethod env "create list" (createListBody env p)

def insertLinkM (env : Env) (p : InsertLinkParams) : M Payload :=
  runMethod env "insert link" (insertLinkBody env p)

def changeFontM (env : Env) (p : ChangeFontParams) : M Payload :=
  runMethod env "change font" (changeFontBody env p)

def downloadDocumentM (env : Env) (p : DownloadDocumentParams) : M Payload :=
  runMethod env "download document" (downloadDocumentBody env p)

def copyDocumentM (env : Env) (p : CopyDocumentParams) : M Payload :=
  runMethod env "copy document" (copyDocumentBody env p)

def getVersionHistoryM (env : Env) (p : GetVersionHistoryParams) : M Payload :=
  runMethod env "get version history" (getVersionHistoryBody env p)

def setAlignmentM (env : Env) (p : SetAlignmentParams) : M Payload :=
  runMethod env "set alignment" (setAlignmentBody env p)

/-- One validated tool invocation, as routed by the CallTool dispatcher
(src/src/index.ts:425-463). -/
inductive ToolCall
  | listDocuments (p : ListDocumentsParams)
  | readDocument (p : ReadDocumentParams)
  | createDocument (p : CreateDocumentParams)
  | searchDocuments (p : SearchDocumentsParams)
  | editDocument (p : EditDocumentParams)
  | deleteDocument (p : DeleteDocumentParams)
  | shareDocument (p : ShareDocumentParams)
  | formatText (p : FormatTextParams)
  | createList (p : CreateListParams)
  | insertLink (p : InsertLinkParams)
  | changeFont (p : ChangeFontParams)
  | downloadDocument (p : DownloadDocumentParams)
  | copyDocument (p : CopyDocumentParams)
  | getVersionHistory (p : GetVersionHistoryParams)
  | setAlignment (p : SetAlignmentParams)
deriving DecidableEq

/-- The operation name that the catch block of the routed handler uses in
its failure message. -/
def opName : ToolCall → String
  | ToolCall.listDocuments _ => "list documents"
  | ToolCall.readDocument _ => "read document"
  | ToolCall.createDocument _ => "create document"
  | ToolCall.searchDocuments _ => "search documents"
  | ToolCall.editDocument _ => "edit document"
  | ToolCall.deleteDocument _ => "delete document"
  | ToolCall.shareDocument _ => "share document"
  | ToolCall.formatText _ => "format text"
  | ToolCall.createList _ => "create list"
  | ToolCall.insertLink _ => "insert link"
  | ToolCall.changeFont _ => "change font"
  | ToolCall.downloadDocument _ => "download document"
  | ToolCall.copyDocument _ => "copy document"
  | ToolCall.getVersionHistory _ => "get version history"
  | ToolCall.setAlignment _ => "set alignment"

/-- The CallTool request handler: route the validated call to its handler. -/
def dispatch (env : Env) : ToolCall → M Payload
  | ToolCall.listDocuments p => listDocumentsM env p
  | ToolCall.readDocument p => readDocumentM env p
  | ToolCall.createDocument p => createDocumentM env p
  | ToolCall.searchDocuments p => searchDocumentsM env p
  | ToolCall.editDocument p => editDocumentM env p
  | ToolCall.deleteDocument p => deleteDocumentM env p
  | ToolCall.shareDocument p => shareDocumentM env p
  | ToolCall.formatText p => formatTextM env p
  | ToolCall.createList p => createListM env p
  | ToolCall.insertLink p => insertLinkM env p
  | ToolCall.changeFont p => changeFontM env p
  | ToolCall.downloadDocument p => downloadDocumentM env p
  | ToolCall.copyDocument p => copyDocumentM env p
  | ToolCall.getVersionHistory p => getVersionHistoryM env p
  | ToolCall.setAlignment p => setAlignmentM env p

/-- Sequential tool invocations against one orchestrator instance: each
call's result is delivered to the caller, the session state persists. -/
def runSeq (env : Env) : List ToolCall → St → St
  | [], s => s
  | c :: rest, s => runSeq env rest (dispatch env c s).2

/-- A failure that the Operation Pipeline boundary has wrapped with the
operation name, as the catch blocks do. -/
def wrappedFailure (op : String) (e : Err) : Prop :=
  ∃ inner : Err, e = Err.mcp ErrCode.internalError ("Failed to " ++ op ++ ": " ++ errStr inner)

/-- The single result of an invocation is either a success payload or a
failure wrapped with the operation name. -/
def singleWrapped (op : String) : Except Err Payload → Prop
  | Except.ok _ => True
  | Except.error e => wrappedFailure op e

-- Infrastructure lemmas ------------------------------------------------------

theorem ensureBrowser_ok (env : Env) (s : St) (h : env.launchOk = true) :
    ensureBrowser env s = (Except.ok (), { s with b := ensuredB s.b }) := by
  unfold ensureBrowser launchStep ensuredB
  cases hb : s.b.browser <;> simp [hb, h]

theorem ensureBrowser_cases (env : Env) (s : St) :
    (∃ e, ensureBrowser env s = (Except.error e, s)) ∨
      ensureBrowser env s = (Except.ok (), { s with b := ensuredB s.b }) := by
  unfold ensureBrowser launchStep ensuredB
  cases hb : s.b.browser
  · cases hl : env.launchOk
    · exact Or.inl ⟨Err.driver "Error: Failed to launch the browser process!", by simp [hb, hl]⟩
    · exact Or.inr (by simp [hb, hl])
  · exact Or.inr (by simp [hb])

theorem tryWrap_eval (op : String) (m : PM α) (sp : PSt) :
    tryWrap op m sp =
      ((match (m sp).1 with
        | Except.ok a => Except.ok a
        | Except.error e =>
            Except.error (Err.mcp ErrCode.internalError ("Failed to " ++ op ++ ": " ++ errStr e))),
       (m sp).2) := by
  unfold tryWrap
  rcases hm : m sp with ⟨r, p'⟩
  cases r <;> simp [hm]

theorem tryWrap_fst_ok {op : String} {m : PM α} {sp : PSt} {a : α}
    (h : (tryWrap op m sp).1 = Except.ok a) : (m sp).1 = Except.ok a := by
  rw [tryWrap_eval] at h
  cases hm : (m sp).1 with
  | ok b => simp [hm] at h; simp [h]
  | error e => simp [hm] at h

theorem runMethod_run (env : Env) (op : String) (body : PM α) (s : St)
    (h : env.launchOk = true) :
    runMethod env op body s =
      ((tryWrap op body s.p).1, { b := ensuredB s.b, p := (tryWrap op body s.p).2 }) := by
  unfold runMethod M.bind
  rw [ensureBrowser_ok env s h]
  unfold liftPage
  rcases htw : tryWrap op body s.p with ⟨r, p'⟩
  simp [htw]

theorem runMethod_ok_inv {env : Env} {op : String} {body : PM α} {s : St} {a : α}
    (h : (runMethod env op body s).1 = Except.ok a) : (body s.p).1 = Except.ok a := by
  rcases ensureBrowser_cases env s with ⟨e, he⟩ | he
  · unfold runMethod M.bind at h
    rw [he] at h
    simp at h
  · unfold runMethod M.bind liftPage at h
    rw [he] at h
    simp at h
    rcases htw : tryWrap op body s.p with ⟨r, p'⟩
    rw [htw] at h
    simp at h
    exact tryWrap_fst_ok (show (tryWrap op body s.p).1 = Except.ok a by rw [htw]; simpa using h)

theorem runMethod_shape (env : Env) (op : String) (body : PM Payload) (s : St)
    (h : env.launchOk = true) : singleWrapped op (runMethod env op body s).1 := by
  rw [runMethod_run env op body s h, tryWrap_eval]
  cases hb : (body s.p).1 with
  | ok a => simp [singleWrapped]
  | error e => exact ⟨e, rfl⟩

theorem runMethod_state_b (env : Env) (op : String) (body : PM α) (s : St)
    (h : env.launchOk = true) : ((runMethod env op body s).2).b = ensuredB s.b := by
  rw [runMethod_run env op body s h]

theorem ensuredB_stable {b : BSt} (hb : b.browser = true) (hp : b.page = true) :
    ensuredB b = b := by
  unfold ensuredB pageStep
  simp [hb, hp]

theorem dispatch_state_b (env : Env) (c : ToolCall) (s : St) (h : env.launchOk = true) :
    ((dispatch env c s).2).b = ensuredB s.b := by
  cases c <;>
    simp only [dispatch, listDocumentsM, readDocumentM, createDocumentM, searchDocumentsM,
      editDocumentM, deleteDocumentM, shareDocumentM, formatTextM, createListM, insertLinkM,
      changeFontM, downloadDocumentM, copyDocumentM, getVersionHistoryM, setAlignmentM] <;>
    exact runMethod_state_b _ _ _ _ h

theorem runSeq_b_stable (env : Env) (h : env.launchOk = true) :
    ∀ (calls : List ToolCall) (s : St), s.b.browser = true → s.b.page = true →
      (runSeq env calls s).b = s.b := by
  intro calls
  induction calls with
  | nil => intro s _ _; rfl
  | cons c rest ih =>
      intro s hb hp
      have hd : ((dispatch env c s).2).b = s.b := by
        rw [dispatch_state_b env c s h, ensuredB_stable hb hp]
      show (runSeq env rest (dispatch env c s).2).b = s.b
      rw [ih (dispatch env c s).2 (by rw [hd]; exact hb) (by rw [hd]; exact hp), hd]

-- Concrete scripted environments used by witnesses and counterexamples ------

/-- A live-launch environment scripting an empty page. -/
def baseEnv : Env :=
  { launchOk := true, pageSelectors := [], frames := [], rows := [],
    iframeContentDoc := false, editorInIframe := false, editorText := "", editorHtml := "",
    versionItems := [] }

def envC1 : Env := baseEnv

def pC1 : DeleteDocumentParams := { documentUrl := "https://docs.proton.me/u/1/doc/abc", permanent := true }

def envC5 : Env := { baseEnv with launchOk := false }

def pC5 : ListDocumentsParams := { searchQuery := none, limit := 20 }

def callsC6 : List ToolCall :=
  [ToolCall.readDocument { documentUrl := "https://docs.proton.me/u/1/doc/abc" },
   ToolCall.listDocuments { searchQuery := none, limit := 20 },
   ToolCall.deleteDocument { documentUrl := "https://docs.proton.me/u/1/doc/abc", permanent := false }]

def envC9 : Env :=
  { baseEnv with
    pageSelectors := [searchInputSel],
    rows := [{ titleCell := some "Doc A", viewedCell := none, createdByCell := none,
               locationCell := none, dataUrl := some "https://docs.proton.me/u/1/doc/a" }] }

def payC9 : Payload :=
  Payload.searchDocs "MCP" [{ title := "Doc A", url := "https://docs.proton.me/u/1/doc/a" }] 1

def envC10 : Env := { baseEnv with pageSelectors := [markerSel] }

/-- Internal consistency predicate of the search payload: the count field
equals the length of the results array and the query field echoes the
input query. -/
def searchPayloadOk (q : String) : Payload → Prop
  | Payload.searchDocs q' results cnt => q' = q ∧ cnt = results.length
  | _ => False

-- Claim C1 -------------------------------------------------------------------

/-- Claim C1 counterexample: delete_document with permanent = true does
issue a UI interaction before failing — the recorded trace of the run
contains a navigation to the trash view, refuting "performs no UI
interaction at all before failing: no navigation call". -/
theorem C1_counterexample :
    Event.nav trashUrl ∈ (deleteDocumentM envC1 pC1 initSt).2.p.trace ∧
      (deleteDocumentM envC1 pC1 initSt).1 =
        Except.error (Err.mcp ErrCode.internalError
          "Failed to delete document: McpError: Permanent deletion from trash not yet implemented") := by
  decide

/-- Claim C1 (amended): for every delete_document invocation with
permanent = true (on a session that can be acquired), the operation always
fails — with an InternalError-wrapped message reporting that permanent
deletion is not implemented, rather than a bare UnsupportedOperationError —
and before failing it performs exactly one navigation (to the trash view)
and no element interaction: the recorded trace extends the prior trace by
exactly the single navigation event. -/
theorem C1_delete_permanent_navigates_then_fails (env : Env) (p : DeleteDocumentParams) (s : St)
    (h : env.launchOk = true) (hp : p.permanent = true) :
    (deleteDocumentM env p s).1 =
      Except.error (Err.mcp ErrCode.internalError
        "Failed to delete document: McpError: Permanent deletion from trash not yet implemented") ∧
      (deleteDocumentM env p s).2.p.trace = s.p.trace ++ [Event.nav trashUrl] := by
  unfold deleteDocumentM
  rw [runMethod_run _ _ _ _ h, tryWrap_eval]
  have hbody : deleteDocumentBody env p s.p =
      (Except.error (Err.mcp ErrCode.invalidRequest
         "Permanent deletion from trash not yet implemented"),
       { trace := s.p.trace ++ [Event.nav trashUrl], currentUrl := trashUrl }) := by
    unfold deleteDocumentBody
    simp [hp, PM.bind, goto, throwErr]
  rw [hbody]
  exact ⟨rfl, rfl⟩

/-- Claim C1 witness: the amended theorem evaluated on a concrete scripted
environment. -/
theorem C1_witness :
    envC1.launchOk = true ∧ pC1.permanent = true ∧
      ((deleteDocumentM envC1 pC1 initSt).1 =
        Except.error (Err.mcp ErrCode.internalError
          "Failed to delete document: McpError: Permanent deletion from trash not yet implemented") ∧
        (deleteDocumentM envC1 pC1 initSt).2.p.trace = initSt.p.trace ++ [Event.nav trashUrl]) :=
  ⟨rfl, rfl, C1_delete_permanent_navigates_then_fails envC1 pC1 initSt rfl rfl⟩

-- Claim C5 -------------------------------------------------------------------

/-- Claim C5 counterexample: on the browser-launch failure path the single
failure delivered for a tool invocation is the raw driver error, not a
failure wrapped with the operation name. -/
theorem C5_counterexample :
    (dispatch envC5 (ToolCall.listDocuments pC5) initSt).1 =
      Except.error (Err.driver "Error: Failed to launch the browser process!") ∧
      ¬ wrappedFailure "list documents" (Err.driver "Error: Failed to launch the browser process!") := by
  refine ⟨by decide, ?_⟩
  rintro ⟨inner, hinner⟩
  simp at hinner

/-- Claim C5 (amended): every tool invocation produces exactly one
OperationResult — the dispatcher is a total function into a single
`Except` value — and whenever the session can be acquired
(browser launch succeeds) that result is either a success payload or a
failure wrapped with the operation name; a launch failure before the
pipeline body instead propagates unwrapped (see the counterexample). -/
theorem C5_single_wrapped_result (env : Env) (call : ToolCall) (s : St)
    (h : env.launchOk = true) :
    singleWrapped (opName call) (dispatch env call s).1 := by
  cases call <;>
    simp only [dispatch, opName, listDocumentsM, readDocumentM, createDocumentM,
      searchDocumentsM, editDocumentM, deleteDocumentM, shareDocumentM, formatTextM,
      createListM, insertLinkM, changeFontM, downloadDocumentM, copyDocumentM,
      getVersionHistoryM, setAlignmentM] <;>
    exact runMethod_shape _ _ _ _ h

/-- Claim C5 witness: the amended theorem at a concrete invocation. -/
theorem C5_witness :
    baseEnv.launchOk = true ∧
      singleWrapped (opName (ToolCall.listDocuments pC5))
        (dispatch baseEnv (ToolCall.listDocuments pC5) initSt).1 :=
  ⟨rfl, C5_single_wrapped_result baseEnv (ToolCall.listDocuments pC5) initSt rfl⟩

-- Claim C6 -------------------------------------------------------------------

/-- Claim C6: session acquisition is idempotent — across any non-empty
sequence of sequential tool invocations on a fresh orchestrator instance,
exactly one browser launch and exactly one page creation occur. -/
theorem C6_single_launch (env : Env) (calls : List ToolCall)
    (h : env.launchOk = true) (hne : calls ≠ []) :
    (runSeq env calls initSt).b.launchCount = 1 ∧ (runSeq env calls initSt).b.pageCount = 1 := by
  cases calls with
  | nil => exact absurd rfl hne
  | cons c rest =>
      have h1 : ((dispatch env c initSt).2).b =
          { browser := true, page := true, launchCount := 1, pageCount := 1 } := by
        rw [dispatch_state_b env c initSt h]
        rfl
      have h2 := runSeq_b_stable env h rest (dispatch env c initSt).2
        (by rw [h1]) (by rw [h1])
      show (runSeq env rest (dispatch env c initSt).2).b.launchCount = 1 ∧
        (runSeq env rest (dispatch env c initSt).2).b.pageCount = 1
      rw [h2, h1]
      exact ⟨rfl, rfl⟩

/-- Claim C6 witness: three sequential operations on a concrete scripted
environment trigger exactly one launch and one page creation. -/
theorem C6_witness :
    baseEnv.launchOk = true ∧ callsC6 ≠ [] ∧
      ((runSeq baseEnv callsC6 initSt).b.launchCount = 1 ∧
        (runSeq baseEnv callsC6 initSt).b.pageCount = 1) :=
  ⟨rfl, by decide, C6_single_launch baseEnv callsC6 rfl (by decide)⟩

-- Claim C9 -------------------------------------------------------------------

/-- Claim C9: whenever search_documents returns a success payload, the
count field equals the number of entries in the results array and the
query field echoes the input query. -/
theorem C9_search_payload_consistent (env : Env) (p : SearchDocumentsParams) (s : St)
    (pay : Payload) (h : (searchDocumentsM env p s).1 = Except.ok pay) :
    searchPayloadOk p.query pay := by
  unfold searchDocumentsM at h
  have hb := runMethod_ok_inv h
  unfold searchDocumentsBody at hb
  by_cases hc : searchInputSel ∈ env.pageSelectors <;>
    simp [PM.bind, PM.pure, goto, waitForSelector, elemType, emit, kbPress, pause, hc] at hb
  simp [← hb, searchPayloadOk]

/-- Claim C9 witness: a concrete successful search run. -/
theorem C9_witness :
    (searchDocumentsM envC9 { query := "MCP" } initSt).1 = Except.ok payC9 ∧
      searchPayloadOk "MCP" payC9 :=
  ⟨by decide, C9_search_payload_consistent envC9 { query := "MCP" } initSt payC9 (by decide)⟩

-- Claim C10 ------------------------------------------------------------------

/-- Claim C10: once the editor-frame marker selector is present,
read_document cannot fail from a missing editor element — if the iframe's
content document or the main editor element is absent, the run returns a
success payload with empty text and empty html. -/
theorem C10_read_document_missing_editor_empty (env : Env) (p : ReadDocumentParams) (s : St)
    (h : env.launchOk = true) (hm : markerSel ∈ env.pageSelectors)
    (hmiss : env.iframeContentDoc = false ∨ env.editorInIframe = false) :
    (readDocumentM env p s).1 = Except.ok (Payload.readDoc "" "") := by
  unfold readDocumentM
  rw [runMethod_run _ _ _ _ h, tryWrap_eval]
  have hbody : (readDocumentBody env p s.p).1 = Except.ok (Payload.readDoc "" "") := by
    unfold readDocumentBody
    rcases hmiss with hd | he
    · simp [PM.bind, PM.pure, goto, waitForSelector, hm, hd]
    · cases hcd : env.iframeContentDoc <;>
        simp [PM.bind, PM.pure, goto, waitForSelector, hm, he, hcd]
  rw [hbody]

/-- Claim C10 witness: a concrete run where the marker is present but the
iframe's content document is not accessible. -/
theorem C10_witness :
    envC10.launchOk = true ∧ markerSel ∈ envC10.pageSelectors ∧
      envC10.iframeContentDoc = false ∧
      (readDocumentM envC10 { documentUrl := "https://docs.proton.me/u/1/doc/z" } initSt).1 =
        Except.ok (Payload.readDoc "" "") :=
  ⟨rfl, by decide, rfl,
    C10_read_document_missing_editor_empty envC10
      { documentUrl := "https://docs.proton.me/u/1/doc/z" } initSt rfl (by decide) (Or.inl rfl)⟩

-- Claim C2 -------------------------------------------------------------------

def envC2 : Env := { baseEnv with pageSelectors := [markerSel] }

def pC2 : EditDocumentParams :=
  { documentUrl := "https://docs.proton.me/u/1/doc/x", content := "hello", append := false }

/-- Claim C2 counterexample: after the marker element appears, when no
rendering context matches the editor fragments the edit_document run does
not fail with any error — it skips its actions and reports success. -/
theorem C2_counterexample :
    (editDocumentM envC2 pC2 initSt).1 =
      Except.ok (Payload.editDoc true "https://docs.proton.me/u/1/doc/x" "replaced") := by
  decide

/-- Claim C2 (amended): for every editing operation (edit_document,
format_text), when the marker element is present but no rendering context
matches the editor's name or URL fragment, the operation silently skips
all of its editing actions and still reports success: the run returns the
usual success payload and the recorded trace contains only the navigation,
the marker wait (and for edit_document the trailing settling pause) — no
click, no typing, no key dispatch. -/
theorem C2_no_matching_frame_silently_succeeds (env : Env)
    (h : env.launchOk = true) (hm : markerSel ∈ env.pageSelectors)
    (hf : findEditorFrame env = none) :
    (∀ (p : EditDocumentParams) (s : St),
       (editDocumentM env p s).1 =
         Except.ok (Payload.editDoc true p.documentUrl
           (if p.append then "appended" else "replaced")) ∧
       (editDocumentM env p s).2.p.trace =
         s.p.trace ++ [Event.nav p.documentUrl, Event.waitSel markerSel, Event.pause 2000]) ∧
    (∀ (p : FormatTextParams) (s : St),
       (formatTextM env p s).1 = Except.ok (Payload.formatApplied true (fmtName p.format) true) ∧
       (formatTextM env p s).2.p.trace =
         s.p.trace ++ [Event.nav p.documentUrl, Event.waitSel markerSel]) := by
  constructor
  · intro p s
    unfold editDocumentM
    rw [runMethod_run _ _ _ _ h, tryWrap_eval]
    have hbody : editDocumentBody env p s.p =
        (Except.ok (Payload.editDoc true p.documentUrl
           (if p.append then "appended" else "replaced")),
         { trace := s.p.trace ++ [Event.nav p.documentUrl, Event.waitSel markerSel, Event.pause 2000],
           currentUrl := p.documentUrl }) := by
      unfold editDocumentBody
      simp [PM.bind, PM.pure, goto, waitForSelector, hm, hf, pause, emit]
    rw [hbody]
    exact ⟨rfl, rfl⟩
  · intro p s
    unfold formatTextM
    rw [runMethod_run _ _ _ _ h, tryWrap_eval]
    have hbody : formatTextBody env p s.p =
        (Except.ok (Payload.formatApplied true (fmtName p.format) true),
         { trace := s.p.trace ++ [Event.nav p.documentUrl, Event.waitSel markerSel],
           currentUrl := p.documentUrl }) := by
      unfold formatTextBody
      simp [PM.bind, PM.pure, goto, waitForSelector, hm, hf]
    rw [hbody]
    exact ⟨rfl, rfl⟩

/-- Claim C2 witness: the amended theorem evaluated on a concrete
editor-less environment. -/
theorem C2_witness :
    ((editDocumentM envC2 pC2 initSt).1 =
       Except.ok (Payload.editDoc true pC2.documentUrl
         (if pC2.append then "appended" else "replaced")) ∧
     (editDocumentM envC2 pC2 initSt).2.p.trace =
       initSt.p.trace ++ [Event.nav pC2.documentUrl, Event.waitSel markerSel, Event.pause 2000]) :=
  (C2_no_matching_frame_silently_succeeds envC2 rfl (by decide) (by decide)).1 pC2 initSt

-- Claim C3 -------------------------------------------------------------------

/-- The key events of a chord whose modifiers are pressed in declared
order before the terminal key and released in the SAME declared order
after it (this is what the source's loops do). -/
def chordSameOrder (mods : List String) (term : String) : List Event :=
  mods.map Event.keyDown ++ [Event.keyPress term] ++ mods.map Event.keyUp

/-- The key events of a strictly ordered chord in the spec's sense:
modifiers pressed before the terminal key and released in REVERSE order
after it. -/
def chordReverseOrder (mods : List String) (term : String) : List Event :=
  mods.map Event.keyDown ++ [Event.keyPress term] ++ mods.reverse.map Event.keyUp

def fmtMods : TextFormat → List String
  | TextFormat.bold => ["Control"]
  | TextFormat.italic => ["Control"]
  | TextFormat.underline => ["Control"]
  | TextFormat.strikethrough => ["Control", "Shift"]

def fmtTerm : TextFormat → String
  | TextFormat.bold => "b"
  | TextFormat.italic => "i"
  | TextFormat.underline => "u"
  | TextFormat.strikethrough => "x"

theorem pressShortcut_bold (sp : PSt) :
    pressShortcut "Control+b" sp =
      (Except.ok (), { sp with trace :=
        ((sp.trace ++ [Event.keyDown "Control"]) ++ [Event.keyPress "b"]) ++
          [Event.keyUp "Control"] }) := rfl

theorem pressShortcut_italic (sp : PSt) :
    pressShortcut "Control+i" sp =
      (Except.ok (), { sp with trace :=
        ((sp.trace ++ [Event.keyDown "Control"]) ++ [Event.keyPress "i"]) ++
          [Event.keyUp "Control"] }) := rfl

theorem pressShortcut_underline (sp : PSt) :
    pressShortcut "Control+u" sp =
      (Except.ok (), { sp with trace :=
        ((sp.trace ++ [Event.keyDown "Control"]) ++ [Event.keyPress "u"]) ++
          [Event.keyUp "Control"] }) := rfl

theorem pressShortcut_strike (sp : PSt) :
    pressShortcut "Control+Shift+x" sp =
      (Except.ok (), { sp with trace :=
        ((((sp.trace ++ [Event.keyDown "Control"]) ++ [Event.keyDown "Shift"]) ++
          [Event.keyPress "x"]) ++ [Event.keyUp "Control"]) ++ [Event.keyUp "Shift"] }) := rfl

def envC3 : Env :=
  { baseEnv with
    pageSelectors := [markerSel],
    frames := [{ name := "editor-frame", url := "https://docs-editor.proton.me/editor",
                 selectors := [mainEditorSel] }] }

def frameC3 : Frame :=
  { name := "editor-frame", url := "https://docs-editor.proton.me/editor",
    selectors := [mainEditorSel] }

def pC3 : FormatTextParams :=
  { documentUrl := "https://docs.proton.me/u/1/doc/x", format := TextFormat.strikethrough,
    selection := none }

/-- Claim C3 counterexample: for the strikethrough fallback chord
(Control+Shift+x) the recorded key sequence releases the modifiers in the
SAME order they were pressed (Control up before Shift up), not in reverse
order as the claim states. -/
theorem C3_counterexample :
    (formatTextM envC3 pC3 initSt).2.p.trace =
      [Event.nav pC3.documentUrl, Event.waitSel markerSel] ++
        chordSameOrder ["Control", "Shift"] "x" ∧
      [Event.nav pC3.documentUrl, Event.waitSel markerSel] ++
          chordSameOrder ["Control", "Shift"] "x" ≠
        [Event.nav pC3.documentUrl, Event.waitSel markerSel] ++
          chordReverseOrder ["Control", "Shift"] "x" := by
  constructor
  · decide
  · decide

/-- Claim C3 (amended): when the primary toolbar locator is absent and the
fallback chord is declared, exactly the fallback chord executes (the
recorded trace contains the chord key events and no toolbar click): every
modifier key is pressed down, in declared order, before the terminal key,
and the modifiers are released after the terminal key in the SAME declared
order (not in reverse order). -/
theorem C3_fallback_chord_order (env : Env) (f : Frame) (p : FormatTextParams) (s : St)
    (h : env.launchOk = true) (hm : markerSel ∈ env.pageSelectors)
    (hf : findEditorFrame env = some f) (hsel : p.selection = none)
    (hb : fmtSelector p.format ∉ f.selectors) :
    (formatTextM env p s).1 = Except.ok (Payload.formatApplied true (fmtName p.format) true) ∧
      (formatTextM env p s).2.p.trace =
        s.p.trace ++ [Event.nav p.documentUrl, Event.waitSel markerSel] ++
          chordSameOrder (fmtMods p.format) (fmtTerm p.format) := by
  unfold formatTextM
  rw [runMethod_run _ _ _ _ h, tryWrap_eval]
  have hbody : formatTextBody env p s.p =
      (Except.ok (Payload.formatApplied true (fmtName p.format) true),
       { trace := s.p.trace ++ [Event.nav p.documentUrl, Event.waitSel markerSel] ++
           chordSameOrder (fmtMods p.format) (fmtTerm p.format),
         currentUrl := p.documentUrl }) := by
    unfold formatTextBody
    cases hfmt : p.format <;> rw [hfmt] at hb <;> simp only [fmtSelector] at hb <;>
      simp [PM.bind, PM.pure, goto, waitForSelector, hm, hf, hsel, frameQuery, hb, hfmt,
        fmtSelector, fmtName, fmtMods, fmtTerm, chordSameOrder, pressShortcut_bold,
        pressShortcut_italic, pressShortcut_underline, pressShortcut_strike, fmtShortcut,
        List.append_assoc]
  rw [hbody]
  exact ⟨rfl, rfl⟩

/-- Claim C3 witness: the amended theorem evaluated on the concrete
strikethrough run. -/
theorem C3_witness :
    (formatTextM envC3 pC3 initSt).1 =
      Except.ok (Payload.formatApplied true (fmtName pC3.format) true) ∧
      (formatTextM envC3 pC3 initSt).2.p.trace =
        initSt.p.trace ++ [Event.nav pC3.documentUrl, Event.waitSel markerSel] ++
          chordSameOrder (fmtMods pC3.format) (fmtTerm pC3.format) :=
  C3_fallback_chord_order envC3 frameC3 pC3 initSt rfl (by decide) (by decide) rfl (by decide)

-- Claim C4 -------------------------------------------------------------------

/-- The events emitted by the item-typing loop of `createList`. -/
def itemsEvents : List String → List Event
  | [] => []
  | [x] => [Event.frameType mainEditorSel x]
  | x :: y :: rest => Event.frameType mainEditorSel x :: Event.keyPress "Enter" :: itemsEvents (y :: rest)

theorem typeItemsLoop_run (f : Frame) (hme : mainEditorSel ∈ f.selectors) :
    ∀ (items : List String) (sp : PSt),
      typeItemsLoop f items sp = (Except.ok (), { sp with trace := sp.trace ++ itemsEvents items }) := by
  intro items
  induction items with
  | nil => intro sp; simp [typeItemsLoop, itemsEvents, PM.pure]
  | cons x rest ih =>
      intro sp
      cases rest with
      | nil => simp [typeItemsLoop, itemsEvents, frameType, hme]
      | cons y rest2 =>
          simp [typeItemsLoop, itemsEvents, PM.bind, frameType, hme, kbPress, emit, ih,
            List.append_assoc]

theorem frameClick_not_mem_itemsEvents (sel : String) :
    ∀ items : List String, Event.frameClick sel ∉ itemsEvents items := by
  intro items
  induction items with
  | nil => simp [itemsEvents]
  | cons x rest ih =>
      cases rest with
      | nil => simp [itemsEvents]
      | cons y rest2 =>
          simp only [itemsEvents, List.mem_cons]
          rintro (hx | hx | hx)
          · exact Event.noConfusion hx
          · exact Event.noConfusion hx
          · exact ih hx

/-- The full interaction trace of a `createList` run whose list-type
button is absent. -/
def createListEvents (p : CreateListParams) : List Event :=
  [Event.nav p.documentUrl, Event.waitSel markerSel, Event.frameClick mainEditorSel] ++
    itemsEvents p.items ++ [Event.keyPress "Enter", Event.keyPress "Enter"]

/-- The full interaction trace of a `setAlignment` run whose alignment
button is absent. -/
def setAlignmentEvents (p : SetAlignmentParams) : List Event :=
  [Event.nav p.documentUrl, Event.waitSel markerSel, Event.frameClick mainEditorSel,
   Event.keyDown "Control", Event.keyPress "a", Event.keyUp "Control"]

def pC4 : CreateListParams :=
  { documentUrl := "https://docs.proton.me/u/1/doc/x", listType := ListKind.bullet,
    items := ["a", "b"] }

/-- Claim C4 counterexample: with the list-type button absent and no
fallback chord declared, create_list does not fail with any error naming
the locator — it continues and reports success. -/
theorem C4_counterexample :
    (createListM envC3 pC4 initSt).1 =
      Except.ok (Payload.listCreated true "bullet" 2) := by
  decide

/-- Claim C4 (amended): when an action step's primary locator is absent
and no fallback chord is declared (the list-type button of create_list,
the alignment button of set_alignment), the step is silently skipped: the
operation continues, reports success, and the recorded trace contains no
click of the missing locator. -/
theorem C4_missing_button_skipped_success (env : Env) (f : Frame)
    (h : env.launchOk = true) (hm : markerSel ∈ env.pageSelectors)
    (hf : findEditorFrame env = some f) (hme : mainEditorSel ∈ f.selectors) :
    (∀ (p : CreateListParams) (s : St), listButtonSel p.listType ∉ f.selectors →
       (createListM env p s).1 =
         Except.ok (Payload.listCreated true (listKindName p.listType) p.items.length) ∧
       (createListM env p s).2.p.trace = s.p.trace ++ createListEvents p ∧
       Event.frameClick (listButtonSel p.listType) ∉ createListEvents p) ∧
    (∀ (p : SetAlignmentParams) (s : St), alignSel p.alignment ∉ f.selectors →
       (setAlignmentM env p s).1 = Except.ok (Payload.alignmentSet true (alignName p.alignment)) ∧
       (setAlignmentM env p s).2.p.trace = s.p.trace ++ setAlignmentEvents p ∧
       Event.frameClick (alignSel p.alignment) ∉ setAlignmentEvents p) := by
  constructor
  · intro p s hbtn
    have hnotmain : listButtonSel p.listType ≠ mainEditorSel := by
      cases p.listType <;> decide
    refine ⟨?_, ?_, ?_⟩
    · unfold createListM
      rw [runMethod_run _ _ _ _ h, tryWrap_eval]
      have hbody : (createListBody env p s.p).1 =
          Except.ok (Payload.listCreated true (listKindName p.listType) p.items.length) := by
        unfold createListBody
        simp [PM.bind, PM.pure, goto, waitForSelector, hm, hf, frameClick, hme, frameQuery,
          hbtn, typeItemsLoop_run f hme, kbPress, emit, List.append_assoc]
      rw [hbody]
    · unfold createListM
      rw [runMethod_run _ _ _ _ h, tryWrap_eval]
      have hbody : (createListBody env p s.p).2 =
          { trace := s.p.trace ++ createListEvents p, currentUrl := p.documentUrl } := by
        unfold createListBody
        simp [PM.bind, PM.pure, goto, waitForSelector, hm, hf, frameClick, hme, frameQuery,
          hbtn, typeItemsLoop_run f hme, kbPress, emit, createListEvents, List.append_assoc]
      rw [hbody]
    · simp [createListEvents, hnotmain,
        frameClick_not_mem_itemsEvents (listButtonSel p.listType) p.items]
  · intro p s hbtn
    have hnotmain : alignSel p.alignment ≠ mainEditorSel := by
      cases p.alignment <;> decide
    have hbody : setAlignmentBody env p s.p =
        (Except.ok (Payload.alignmentSet true (alignName p.alignment)),
         { trace := s.p.trace ++ setAlignmentEvents p, currentUrl := p.documentUrl }) := by
      unfold setAlignmentBody
      simp [PM.bind, PM.pure, goto, waitForSelector, hm, hf, frameClick, hme, frameQuery,
        hbtn, kbDown, kbPress, kbUp, emit, setAlignmentEvents, List.append_assoc]
    refine ⟨?_, ?_, ?_⟩
    · unfold setAlignmentM
      rw [runMethod_run _ _ _ _ h, tryWrap_eval, hbody]
    · unfold setAlignmentM
      rw [runMethod_run _ _ _ _ h, tryWrap_eval, hbody]
    · simp [setAlignmentEvents, hnotmain]

/-- Claim C4 witness: the amended theorem evaluated on the concrete
bullet-list run with the button absent. -/
theorem C4_witness :
    (createListM envC3 pC4 initSt).1 =
      Except.ok (Payload.listCreated true (listKindName pC4.listType) pC4.items.length) ∧
      (createListM envC3 pC4 initSt).2.p.trace = initSt.p.trace ++ createListEvents pC4 ∧
      Event.frameClick (listButtonSel pC4.listType) ∉ createListEvents pC4 :=
  (C4_missing_button_skipped_success envC3 frameC3 rfl (by decide) (by decide)
    (by decide)).1 pC4 initSt (by decide)

-- Claim C7 -------------------------------------------------------------------

def rowC7 (i : Nat) : DocRow :=
  { titleCell := some ("Doc " ++ toString i), viewedCell := none, createdByCell := none,
    locationCell := none, dataUrl := some ("https://docs.proton.me/u/1/doc/" ++ toString i) }

/-- An eight-row listing surface whose table is present. -/
def envC7 : Env :=
  { baseEnv with
    pageSelectors := ["table"],
    rows := [rowC7 1, rowC7 2, rowC7 3, rowC7 4, rowC7 5, rowC7 6, rowC7 7, rowC7 8] }

def docC7 (i : Nat) : DocEntry :=
  { title := "Doc " ++ toString i, viewed := "", createdBy := "", location := "",
    url := "https://docs.proton.me/u/1/doc/" ++ toString i }

/-- The first five rows of `envC7`, in row order. -/
def fiveDocs : List DocEntry := [docC7 1, docC7 2, docC7 3, docC7 4, docC7 5]

/-- A one-row listing surface used by the negative-limit counterexample. -/
def envC7neg : Env := { baseEnv with pageSelectors := ["table"], rows := [rowC7 1] }

/-- The schema-admitted fractional limit 2.5, as an exact rational. -/
def twoPointFive : Rat := ⟨5, 2, by decide, by decide⟩

/-- The first three rows of `envC7`, in row order. -/
def threeDocs : List DocEntry := [docC7 1, docC7 2, docC7 3]

/-- Claim C7 counterexample: the schema declares `limit` as an arbitrary
number, and the claimed bound `entries <= min(limit, rows)` fails on that
domain.  With limit = 2.5 against the eight-row surface the loop
`i < Math.min(8, 2.5)` runs three times, returning 3 entries although
`min(2.5, 8) = 2.5 < 3`; with limit = -1 the run returns 0 entries
although `min(-1, 1) = -1 < 0`. -/
theorem C7_counterexample :
    ((listDocumentsM envC7 { searchQuery := none, limit := twoPointFive } initSt).1 =
        Except.ok (Payload.listDocs threeDocs) ∧
      ¬ ((threeDocs.length : Rat) ≤ min ((envC7.rows.length : Rat)) twoPointFive)) ∧
    ((listDocumentsM envC7neg { searchQuery := none, limit := -1 } initSt).1 =
        Except.ok (Payload.listDocs []) ∧
      ¬ ((([] : List DocEntry).length : Rat) ≤ min ((envC7neg.rows.length : Rat)) (-1 : Rat))) := by
  refine ⟨⟨by decide, ?_⟩, by decide, ?_⟩
  · have h25 : twoPointFive = 5 / 2 := by
      rw [twoPointFive, Rat.mk'_eq_divInt, Rat.divInt_eq_div]
      norm_num
    have hlen : ((envC7.rows.length : Nat) : Rat) = (8 : Rat) := by decide
    have h3 : ((threeDocs.length : Nat) : Rat) = (3 : Rat) := by decide
    rw [h25, hlen, h3]
    norm_num [min_def]
  · have hlen : ((envC7neg.rows.length : Nat) : Rat) = (1 : Rat) := by decide
    rw [hlen]
    norm_num [min_def]

theorem extractLoop_length_le_rows (m : Rat) :
    ∀ (rows : List DocRow) (i : Nat), (extractLoop m i rows).length ≤ rows.length := by
  intro rows
  induction rows with
  | nil => intro i; simp [extractLoop]
  | cons r rest ih =>
      intro i
      unfold extractLoop
      by_cases hi : (i : Rat) < m
      · cases hr : rowToDoc r <;> simp [hi, hr]
        · exact Nat.le_succ_of_le (ih (i + 1))
        · exact ih (i + 1)
      · simp [hi]

theorem extractLoop_length_le_ceil (m : Rat) :
    ∀ (rows : List DocRow) (i : Nat), (extractLoop m i rows).length ≤ (⌈m⌉ - (i : Int)).toNat := by
  intro rows
  induction rows with
  | nil => intro i; simp [extractLoop]
  | cons r rest ih =>
      intro i
      unfold extractLoop
      by_cases hi : (i : Rat) < m
      · have hz : (i : Int) < ⌈m⌉ := by
          rw [Int.lt_ceil]
          exact_mod_cast hi
        have hrec := ih (i + 1)
        cases hr : rowToDoc r <;> simp [hi, hr] <;> omega
      · simp [hi]

theorem jsMin_eq_min (a b : Rat) : jsMin a b = min a b := by
  rw [jsMin, min_def]
  rcases lt_or_le b a with h | h
  · rw [if_pos h, if_neg (not_le.mpr h)]
  · rw [if_neg (not_lt.mpr h), if_pos h]

/-- The loop visits at most `rows.length` rows and at most `ceil limit`
of them, so the entry count never exceeds `min(rows, ceil limit)`. -/
theorem extractDocs_length_le (rows : List DocRow) (limit : Rat) :
    (extractDocs rows limit).length ≤ min rows.length (⌈limit⌉.toNat) := by
  refine Nat.le_min.mpr ⟨extractLoop_length_le_rows _ rows 0, ?_⟩
  have h1 := extractLoop_length_le_ceil (jsMin ((rows.length : Rat)) limit) rows 0
  have h2 : ⌈jsMin ((rows.length : Rat)) limit⌉ ≤ ⌈limit⌉ := by
    rw [jsMin_eq_min]
    exact Int.ceil_mono (min_le_right _ _)
  unfold extractDocs
  omega

/-- Claim C7 (amended): for every schema-admitted limit (any finite JS
number: negative, fractional or integral), the number of entries returned
by list_documents never exceeds min(number of rows, ceil(limit)) — which
coincides with min(rows, limit) exactly when the limit is a non-negative
integer, the bound the original claim states; for fractional or negative
limits the original bound fails (see the counterexample).  Concretely,
listing with limit = 5 against an eight-row surface returns exactly the
first five entries, in row order. -/
theorem C7_limit_bound :
    (∀ (env : Env) (p : ListDocumentsParams) (s : St) (docs : List DocEntry),
       (listDocumentsM env p s).1 = Except.ok (Payload.listDocs docs) →
       docs.length ≤ min env.rows.length (⌈p.limit⌉.toNat)) ∧
    (listDocumentsM envC7 { searchQuery := none, limit := 5 } initSt).1 =
      Except.ok (Payload.listDocs fiveDocs) := by
  constructor
  · intro env p s docs h
    unfold listDocumentsM at h
    have hb := runMethod_ok_inv h
    unfold listDocumentsBody at hb
    have hdocs : docs = extractDocs env.rows p.limit := by
      by_cases ht : "table" ∈ env.pageSelectors
      · cases hq : p.searchQuery with
        | none => simp [PM.bind, PM.pure, goto, waitForSelector, ht, hq] at hb; simp [hb]
        | some q =>
            by_cases hqe : q = ""
            · simp [PM.bind, PM.pure, goto, waitForSelector, ht, hq, hqe] at hb
              simp [hb]
            · by_cases hs : searchInputSel ∈ env.pageSelectors
              · simp [PM.bind, PM.pure, goto, waitForSelector, ht, hq, hqe, hs, pageType,
                  kbPress, emit, pause] at hb
                simp [hb]
              · simp [PM.bind, PM.pure, goto, waitForSelector, ht, hq, hqe, hs, pageType,
                  kbPress, emit, pause] at hb
      · simp [PM.bind, PM.pure, goto, waitForSelector, ht] at hb
    rw [hdocs]
    exact extractDocs_length_le env.rows p.limit
  · decide

/-- Claim C7 witness: the amended bound evaluated at the concrete
eight-row, limit-5 scenario. -/
theorem C7_witness :
    (listDocumentsM envC7 { searchQuery := none, limit := 5 } initSt).1 =
      Except.ok (Payload.listDocs fiveDocs) ∧
      fiveDocs.length ≤ min envC7.rows.length (⌈(5 : Rat)⌉.toNat) :=
  ⟨by decide,
    C7_limit_bound.1 envC7 { searchQuery := none, limit := 5 } initSt fiveDocs (by decide)⟩

-- Claim C8 -------------------------------------------------------------------

/-- The success-payload property claimed for create_document: success,
the echoed title, and a non-empty document locator. -/
def createPayloadOk (title : String) : Payload → Prop
  | Payload.createDoc success u t => success = true ∧ t = title ∧ u ≠ ""
  | _ => False

def envC8 : Env := { baseEnv with pageSelectors := [inputElemSel] }

def payC8 : Payload := Payload.createDoc true composeUrl "MCP Test Document"

/-- Claim C8: whenever create_document with title "MCP Test Document" and
no content succeeds, the payload carries a non-empty document locator and
a title equal to the requested title. -/
theorem C8_create_document_payload (env : Env) (s : St) (pay : Payload)
    (h : (createDocumentM env { title := "MCP Test Document", content := none } s).1 =
      Except.ok pay) :
    createPayloadOk "MCP Test Document" pay := by
  unfold createDocumentM at h
  have hb := runMethod_ok_inv h
  unfold createDocumentBody at hb
  by_cases h1 : inputElemSel ∈ env.pageSelectors
  · simp [PM.bind, PM.pure, goto, pause, emit, pageQuery, elemClick, elemType, kbPress,
      getUrl, h1] at hb
    simp [← hb, createPayloadOk, composeUrl]
  · by_cases h2 : nameDropdownSel ∈ env.pageSelectors
    · by_cases h3 : ("[data-testid=\"dropdown-rename\"]" : String) ∈ env.pageSelectors
      · simp [PM.bind, PM.pure, goto, pause, emit, pageQuery, elemClick, elemType, kbPress,
          pageClick, waitForSelector, getUrl, h1, h2, h3] at hb
      · simp [PM.bind, PM.pure, goto, pause, emit, pageQuery, elemClick, elemType, kbPress,
          pageClick, waitForSelector, getUrl, h1, h2, h3] at hb
    · simp [PM.bind, PM.pure, goto, pause, emit, pageQuery, elemClick, elemType, kbPress,
        pageClick, waitForSelector, getUrl, h1, h2] at hb

/-- Claim C8 witness: a concrete successful creation run through the
rename-dialog path. -/
theorem C8_witness :
    (createDocumentM envC8 { title := "MCP Test Document", content := none } initSt).1 =
      Except.ok payC8 ∧ createPayloadOk "MCP Test Document" payC8 :=
  ⟨by decide,
    C8_create_document_payload envC8 initSt payC8 (by decide)⟩

end ProtonDocs
